import Mathlib

/-!
Shallow embedding of the repair-estimation core of the road-damage-detection
repository (`utils/damage_analysis.py`, class `DamageAnalyzer`).

Modelling conventions:
* Python floats are embedded as rationals (`ℚ`); `round(x, n)` is Python 3
  round-half-to-even (`pyRound`), `math.ceil` is `Int.ceil`.
* A Python expression that can raise is embedded as an `Option`-valued
  function, `none` marking the exception.
* A detection is a string-keyed mapping; `detection.get(key, default)` is
  embedded by giving every key an `Option` field, `none` meaning the key is
  absent.  Within this model, bbox values (when present) are lists of numbers.
* Fields of the produced dictionaries that no claim refers to (crew roles,
  equipment / material / safety string lists, weather constraints, traffic
  impact, recommendations, maintenance schedule, risk assessment, ISO survey
  dates) are omitted from the embedded records; every numeric or
  classification field used by a claim is embedded exactly as computed by the
  source.  Calendar dates are embedded as day offsets from the survey instant
  (`datetime.now()`), so `now + timedelta(days=180)` becomes the offset `180`.
-/

namespace RoadDamage

/-- Python 3 `round` to an integer: round half to even (banker's rounding). -/
def pyRoundInt (x : ℚ) : ℤ :=
  let f := ⌊x⌋
  let r := x - (f : ℚ)
  if r < 1/2 then f
  else if 1/2 < r then f + 1
  else if f % 2 = 0 then f else f + 1

/-- Python 3 `round(x, n)` for `n` decimal digits. -/
def pyRound (x : ℚ) (n : ℕ) : ℚ :=
  (pyRoundInt (x * 10 ^ n) : ℚ) / 10 ^ n

/-- The four severity levels of `DamageAnalyzer.severity_levels`. -/
inductive Severity where
  | minor
  | moderate
  | severe
  | critical
deriving DecidableEq, Repr

/-- Numeric rank realising the spec's order `minor < moderate < severe < critical`. -/
def Severity.rank : Severity → ℕ
  | .minor => 0
  | .moderate => 1
  | .severe => 2
  | .critical => 3

/-- Table `DamageAnalyzer.repair_costs[damage_type][severity]['cost_per_m']`.
The trailing branch is the `dict.get` fallback to the `'D40_Pothole'` table
used in `analyze_single_damage` for unknown damage types. -/
def cost_per_m (damage_type : String) (s : Severity) : ℚ :=
  if damage_type = "D00_Longitudinal_Crack" then
    match s with
    | .minor => 1200 | .moderate => 2000 | .severe => 3600 | .critical => 6800
  else if damage_type = "D10_Transverse_Crack" then
    match s with
    | .minor => 1440 | .moderate => 2400 | .severe => 4000 | .critical => 7200
  else if damage_type = "D20_Alligator_Crack" then
    match s with
    | .minor => 2800 | .moderate => 5200 | .severe => 9600 | .critical => 16000
  else if damage_type = "D40_Pothole" then
    match s with
    | .minor => 2000 | .moderate => 3600 | .severe => 6000 | .critical => 12000
  else if damage_type = "Repair" then
    match s with
    | .minor => 800 | .moderate => 1600 | .severe => 3200 | .critical => 6400
  else if damage_type = "Block_Crack" then
    match s with
    | .minor => 1600 | .moderate => 3200 | .severe => 5600 | .critical => 10400
  else
    match s with
    | .minor => 2000 | .moderate => 3600 | .severe => 6000 | .critical => 12000

/-- Table `DamageAnalyzer.repair_times[damage_type][severity]` (hours per square
meter), with the same `dict.get` fallback to `'D40_Pothole'`. -/
def repair_time_per_sqm (damage_type : String) (s : Severity) : ℚ :=
  if damage_type = "D00_Longitudinal_Crack" then
    match s with
    | .minor => 1/2 | .moderate => 1 | .severe => 5/2 | .critical => 6
  else if damage_type = "D10_Transverse_Crack" then
    match s with
    | .minor => 3/5 | .moderate => 6/5 | .severe => 3 | .critical => 7
  else if damage_type = "D20_Alligator_Crack" then
    match s with
    | .minor => 3/2 | .moderate => 3 | .severe => 6 | .critical => 12
  else if damage_type = "D40_Pothole" then
    match s with
    | .minor => 1 | .moderate => 2 | .severe => 4 | .critical => 8
  else if damage_type = "Repair" then
    match s with
    | .minor => 3/10 | .moderate => 4/5 | .severe => 2 | .critical => 5
  else if damage_type = "Block_Crack" then
    match s with
    | .minor => 4/5 | .moderate => 3/2 | .severe => 7/2 | .critical => 8
  else
    match s with
    | .minor => 1 | .moderate => 2 | .severe => 4 | .critical => 8

/-- Lookup `DamageAnalyzer.priority_matrix[severity]['level']`. -/
def priority_level : Severity → ℕ
  | .critical => 1
  | .severe => 2
  | .moderate => 3
  | .minor => 4

/-- Embedding of `DamageAnalyzer.calculate_damage_area(bbox, image_shape, pixel_to_meter_ratio)`.

The source's `image_shape` parameter is unused by the source body and is
omitted.  `if not bbox or len(bbox) < 4: return 0.1` keeps both (redundant)
tests of the source.  The tuple unpacking `x1, y1, x2, y2 = bbox` succeeds
only for a list of exactly four entries; on a longer list it raises
`ValueError`, embedded as `none`. -/
def calculate_damage_area (bbox : List ℚ) (pixel_to_meter_ratio : ℚ) : Option ℚ :=
  if bbox = [] ∨ bbox.length < 4 then some (1/10)
  else
    match bbox with
    | [x1, y1, x2, y2] =>
        some ((|x2 - x1| * pixel_to_meter_ratio) * (|y2 - y1| * pixel_to_meter_ratio))
    | _ => none

/-- The confidence-threshold bucketing at the top of
`DamageAnalyzer.determine_severity` (`base_severity` in the source). -/
def base_severity (confidence : ℚ) : Severity :=
  if 4/5 ≤ confidence then .severe
  else if 3/5 ≤ confidence then .moderate
  else if 2/5 ≤ confidence then .minor
  else .minor

/-- Embedding of `DamageAnalyzer.determine_severity(confidence, damage_type, area_sqm)`:
the base severity from the confidence thresholds, then the area adjustment
for the high-impact types `D20_Alligator_Crack` and `D40_Pothole`. -/
def determine_severity (confidence : ℚ) (damage_type : String) (area_sqm : ℚ) :
    Severity :=
  let base := base_severity confidence
  if damage_type = "D20_Alligator_Crack" ∨ damage_type = "D40_Pothole" then
    if 2 < area_sqm then
      match base with
      | .severe => .critical
      | .moderate => .severe
      | b => b
    else if 1/2 < area_sqm then
      match base with
      | .minor => .moderate
      | b => b
    else base
  else base

/-- A detection mapping as consumed by `analyze_single_damage`.  Each field
models one `detection.get(...)` key; `none` means the key is absent. -/
structure Detection where
  damage_type : Option String
  confidence : Option ℚ
  bbox : Option (List ℚ)
deriving DecidableEq, Repr

/-- The numeric / classification fields of the dictionary returned by
`DamageAnalyzer.analyze_single_damage` (see the file header for the omitted
descriptive fields). -/
structure DamageEstimate where
  damage_type : String
  severity : Severity
  confidence : ℚ
  area_sqm : ℚ
  bbox : List ℚ
  repair_cost : ℚ
  repair_time_hours : ℚ
  repair_days : ℤ
  priority_level : ℕ
deriving DecidableEq, Repr

/-- Embedding of `DamageAnalyzer.analyze_single_damage(detection, image_shape)`.
`none` marks the propagation of the `ValueError` from
`calculate_damage_area` (the only statement of the body that can raise on an
input of this model).  The default pixel-to-meter ratio `0.01` of
`calculate_damage_area` is used, as in the source call site. -/
def analyze_single_damage (detection : Detection) : Option DamageEstimate :=
  let damage_type := detection.damage_type.getD "Unknown"
  let confidence := detection.confidence.getD (1/2)
  let bbox := detection.bbox.getD [0, 0, 100, 100]
  match calculate_damage_area bbox (1/100) with
  | none => none
  | some area_sqm =>
    let severity := determine_severity confidence damage_type area_sqm
    let total_cost := area_sqm * cost_per_m damage_type severity
    let total_time_hours := area_sqm * repair_time_per_sqm damage_type severity
    some
      { damage_type := damage_type
        severity := severity
        confidence := confidence
        area_sqm := pyRound area_sqm 2
        bbox := bbox
        repair_cost := pyRound total_cost 2
        repair_time_hours := pyRound total_time_hours 1
        repair_days := ⌈total_time_hours / 8⌉
        priority_level := priority_level severity }

/-- The exact (unrounded) damage area computed inside
`analyze_single_damage` for a detection, default bbox and ratio included. -/
def raw_area (detection : Detection) : Option ℚ :=
  calculate_damage_area (detection.bbox.getD [0, 0, 100, 100]) (1/100)

/-- The exact (unrounded) `total_time_hours` value computed inside
`analyze_single_damage` for a detection. -/
def raw_repair_time (detection : Detection) : Option ℚ :=
  (raw_area detection).map fun a =>
    a * repair_time_per_sqm (detection.damage_type.getD "Unknown")
        (determine_severity (detection.confidence.getD (1/2))
          (detection.damage_type.getD "Unknown") a)

/-! ### The Aggregator (`generate_area_summary` and its helpers) -/

/-- The numeric fields of the `'summary_statistics'` sub-dictionary of an
area summary. -/
structure SummaryStatistics where
  total_images_surveyed : ℕ
  damaged_locations : ℕ
  damage_rate_percentage : ℚ
  total_damaged_area_sqm : ℚ
  total_repair_cost_usd : ℚ
  total_repair_time_hours : ℚ
  estimated_project_duration_days : ℤ
deriving DecidableEq, Repr

/-- The `'budget_breakdown'` dictionary of `generate_budget_breakdown`:
the five rounded category accumulators, the rounded total and the rounded
average cost per square meter. -/
structure BudgetBreakdown where
  materials : ℚ
  labor : ℚ
  equipment : ℚ
  traffic_control : ℚ
  contingency : ℚ
  total_budget : ℚ
  cost_per_sqm_average : ℚ
deriving DecidableEq, Repr

/-- The fields of the area-summary dictionary used by the claims.  A clean
area (`generate_clean_area_report`) carries a `next_inspection` date and no
budget breakdown; the non-empty aggregation branch carries a budget breakdown
and no `next_inspection` key — each absent key is `none` here.
`next_inspection_in_days` is the day offset from the survey instant. -/
structure AreaSummary where
  area_name : String
  overall_condition : String
  condition_description : String
  summary_statistics : SummaryStatistics
  budget_breakdown : Option BudgetBreakdown
  next_inspection_in_days : Option ℕ
deriving DecidableEq, Repr

/-- Count `severity_counts.get(s, 0)` of `generate_area_summary`: the number of
estimates of severity `s` in the list. -/
def severity_count (s : Severity) (all_damages : List DamageEstimate) : ℕ :=
  (all_damages.filter fun d => d.severity = s).length

/-- Embedding of `DamageAnalyzer.generate_clean_area_report(area_name, total_images)`:
the report for an area with no damage detected.  `next_inspection` is
`datetime.now() + timedelta(days=180)`, embedded as the offset `180`. -/
def generate_clean_area_report (area_name : String) (total_images : ℕ) :
    AreaSummary :=
  { area_name := area_name
    overall_condition := "EXCELLENT"
    condition_description := "No damage detected - road in excellent condition"
    summary_statistics :=
      { total_images_surveyed := total_images
        damaged_locations := 0
        damage_rate_percentage := 0
        total_damaged_area_sqm := 0
        total_repair_cost_usd := 0
        total_repair_time_hours := 0
        estimated_project_duration_days := 0 }
    budget_breakdown := none
    next_inspection_in_days := some 180 }

/-- Bucket `priority_groups[lvl]` of `calculate_project_timeline`: the damages of
priority level `lvl`, in list order. -/
def phase_damages (lvl : ℕ) (all_damages : List DamageEstimate) :
    List DamageEstimate :=
  all_damages.filter fun d => d.priority_level = lvl

/-- Value `timeline['total_days']` of `DamageAnalyzer.calculate_project_timeline`:
the immediate phase takes the maximum of its repair days (`0` when empty),
the urgent / scheduled / preventive phases take their summed repair days
floor-divided by 2 / 3 / 4 (Python `//`), and the total is clamped to at
least 1. -/
def calculate_project_timeline_total_days (all_damages : List DamageEstimate) :
    ℤ :=
  let immediate :=
    match (phase_damages 1 all_damages).map (·.repair_days) with
    | [] => 0
    | x :: xs => xs.foldl max x
  let urgent := Int.fdiv ((phase_damages 2 all_damages).map (·.repair_days)).sum 2
  let scheduled := Int.fdiv ((phase_damages 3 all_damages).map (·.repair_days)).sum 3
  let preventive := Int.fdiv ((phase_damages 4 all_damages).map (·.repair_days)).sum 4
  max (immediate + urgent + scheduled + preventive) 1

/-- Embedding of `DamageAnalyzer.generate_budget_breakdown(all_damages)`: the loop adds
`repair_cost * p` to each category accumulator for the fixed percentages
`p = 0.4, 0.35, 0.15, 0.05, 0.05`; each accumulator is rounded to 2 decimals,
as are the total and the per-square-meter average
`total / max(sum of areas, 1)`. -/
def generate_budget_breakdown (all_damages : List DamageEstimate) :
    BudgetBreakdown :=
  let materials := (all_damages.map fun d => d.repair_cost * (2/5)).sum
  let labor := (all_damages.map fun d => d.repair_cost * (7/20)).sum
  let equip := (all_damages.map fun d => d.repair_cost * (3/20)).sum
  let traffic := (all_damages.map fun d => d.repair_cost * (1/20)).sum
  let conting := (all_damages.map fun d => d.repair_cost * (1/20)).sum
  let total := materials + labor + equip + traffic + conting
  { materials := pyRound materials 2
    labor := pyRound labor 2
    equipment := pyRound equip 2
    traffic_control := pyRound traffic 2
    contingency := pyRound conting 2
    total_budget := pyRound total 2
    cost_per_sqm_average :=
      pyRound (total / max ((all_damages.map (·.area_sqm)).sum) 1) 2 }

/-- Embedding of `DamageAnalyzer.generate_area_summary(area_name, all_damages, total_images)`.

An empty damage list branches to `generate_clean_area_report` before any
other computation.  On the non-empty branch the source computes
`damage_rate_percentage` as `round((len(all_damages) / total_images) * 100, 1)`
with no guard on `total_images`; the `ZeroDivisionError` raised when
`total_images == 0` is embedded as `none`. -/
def generate_area_summary (area_name : String)
    (all_damages : List DamageEstimate) (total_images : ℕ) :
    Option AreaSummary :=
  if all_damages = [] then
    some (generate_clean_area_report area_name total_images)
  else
    let total_cost := (all_damages.map (·.repair_cost)).sum
    let total_time_hours := (all_damages.map (·.repair_time_hours)).sum
    let total_area := (all_damages.map (·.area_sqm)).sum
    let critical_count := severity_count .critical all_damages
    let severe_count := severity_count .severe all_damages
    let overall_condition :=
      if 0 < critical_count then "CRITICAL"
      else if 2 < severe_count then "POOR"
      else if 0 < severe_count ∨ 5 < all_damages.length then "FAIR"
      else "GOOD"
    let condition_description :=
      if 0 < critical_count then "Immediate attention required"
      else if 2 < severe_count then "Urgent repairs needed"
      else if 0 < severe_count ∨ 5 < all_damages.length then
        "Scheduled maintenance required"
      else "Minor maintenance needed"
    if total_images = 0 then none
    else
      some
        { area_name := area_name
          overall_condition := overall_condition
          condition_description := condition_description
          summary_statistics :=
            { total_images_surveyed := total_images
              damaged_locations := all_damages.length
              damage_rate_percentage :=
                pyRound ((all_damages.length : ℚ) / (total_images : ℚ) * 100) 1
              total_damaged_area_sqm := pyRound total_area 2
              total_repair_cost_usd := pyRound total_cost 2
              total_repair_time_hours := pyRound total_time_hours 1
              estimated_project_duration_days :=
                calculate_project_timeline_total_days all_damages }
          budget_breakdown := some (generate_budget_breakdown all_damages)
          next_inspection_in_days := none }

/-- Spec-side reformulation, following the claim's words: the overall
condition is decided by a first-match-wins order — any critical-severity
estimate gives `CRITICAL`; otherwise more than 2 severe give `POOR`;
otherwise at least one severe or more than 5 estimates give `FAIR`;
otherwise `GOOD`. -/
def spec_overall_condition (all_damages : List DamageEstimate) : String :=
  if ∃ d ∈ all_damages, d.severity = Severity.critical then "CRITICAL"
  else if 2 < severity_count .severe all_damages then "POOR"
  else if (∃ d ∈ all_damages, d.severity = Severity.severe) ∨
      5 < all_damages.length then "FAIR"
  else "GOOD"

/-- A minimal damage estimate of a given severity, with the priority level
the Unit Estimator derives from it; used for concrete aggregation scenarios. -/
def mk_estimate (s : Severity) : DamageEstimate :=
  { damage_type := "D40_Pothole"
    severity := s
    confidence := 1/2
    area_sqm := 2
    bbox := [0, 0, 100, 200]
    repair_cost := 100
    repair_time_hours := 4
    repair_days := 1
    priority_level := priority_level s }

/-- The estimate `analyze_single_damage` produces for the small concrete
pothole detection `bbox = [0, 0, 10, 10]`, `confidence = 0.85`; used as a
concrete instantiation. -/
def pothole_small_estimate : DamageEstimate :=
  { damage_type := "D40_Pothole"
    severity := .severe
    confidence := 17/20
    area_sqm := 1/100
    bbox := [0, 0, 10, 10]
    repair_cost := 60
    repair_time_hours := 0
    repair_days := 1
    priority_level := 2 }

/-! ### General lemmas about the embedded primitives -/

/-- Ceiling characterisation: `⌈x⌉ = z` from the two bracketing inequalities. -/
theorem ceil_rat_eq (x : ℚ) (z : ℤ) (h1 : (z : ℚ) - 1 < x) (h2 : x ≤ (z : ℚ)) :
    ⌈x⌉ = z :=
  Int.ceil_eq_iff.mpr ⟨h1, h2⟩

/-- Rounding half to even moves a rational by at most `1/2`. -/
theorem pyRoundInt_sub_abs_le (x : ℚ) : |(pyRoundInt x : ℚ) - x| ≤ 1/2 := by
  have h0 : (⌊x⌋ : ℚ) ≤ x := Int.floor_le x
  have h1 : x < (⌊x⌋ : ℚ) + 1 := Int.lt_floor_add_one x
  simp only [pyRoundInt]
  split_ifs with hr hs he <;>
    (rw [abs_le]; push_cast; constructor <;> linarith)

/-- Rounding `round(x, n)` moves a rational by at most half an ulp, `1 / (2·10^n)`. -/
theorem pyRound_sub_abs_le (x : ℚ) (n : ℕ) :
    |pyRound x n - x| ≤ 1 / (2 * 10 ^ n) := by
  have hp : (0:ℚ) < 10 ^ n := by positivity
  have h := pyRoundInt_sub_abs_le (x * 10 ^ n)
  have hx : pyRound x n - x =
      ((pyRoundInt (x * 10 ^ n) : ℚ) - x * 10 ^ n) / 10 ^ n := by
    unfold pyRound; field_simp; ring
  rw [hx, abs_div, abs_of_pos hp]
  calc |(pyRoundInt (x * 10 ^ n) : ℚ) - x * 10 ^ n| / 10 ^ n
      ≤ (1/2) / 10 ^ n := by
        exact div_le_div_of_nonneg_right h hp.le
    _ = 1 / (2 * 10 ^ n) := by rw [div_div]

/-- Rounding half to even preserves nonnegativity. -/
theorem pyRoundInt_nonneg {x : ℚ} (hx : 0 ≤ x) : 0 ≤ pyRoundInt x := by
  have h : (0:ℤ) ≤ ⌊x⌋ := Int.floor_nonneg.mpr hx
  simp only [pyRoundInt]
  split_ifs <;> omega

/-- Rounding `round(x, n)` preserves nonnegativity. -/
theorem pyRound_nonneg {x : ℚ} (n : ℕ) (hx : 0 ≤ x) : 0 ≤ pyRound x n := by
  have h : (0:ℤ) ≤ pyRoundInt (x * 10 ^ n) := pyRoundInt_nonneg (by positivity)
  unfold pyRound
  apply div_nonneg _ (by positivity)
  exact_mod_cast h

/-- Every per-square-meter cost of the repair-cost table is positive. -/
theorem cost_per_m_pos (damage_type : String) (s : Severity) :
    0 < cost_per_m damage_type s := by
  unfold cost_per_m
  split_ifs <;> cases s <;> norm_num

/-- Every per-square-meter repair time of the table is positive. -/
theorem repair_time_per_sqm_pos (damage_type : String) (s : Severity) :
    0 < repair_time_per_sqm damage_type s := by
  unfold repair_time_per_sqm
  split_ifs <;> cases s <;> norm_num

/-- A successfully computed damage area is nonnegative. -/
theorem calculate_damage_area_nonneg {bbox : List ℚ} {r a : ℚ} (hr : 0 ≤ r)
    (h : calculate_damage_area bbox r = some a) : 0 ≤ a := by
  unfold calculate_damage_area at h
  split_ifs at h with h1
  · obtain rfl : (1:ℚ)/10 = a := Option.some.inj h
    norm_num
  · rcases bbox with _ | ⟨x1, _ | ⟨y1, _ | ⟨x2, _ | ⟨y2, _ | ⟨z, rest⟩⟩⟩⟩⟩
    · exact absurd (Or.inl rfl) h1
    · exact absurd (Or.inr (by simp)) h1
    · exact absurd (Or.inr (by simp)) h1
    · exact absurd (Or.inr (by simp)) h1
    · obtain rfl := Option.some.inj h
      exact mul_nonneg (mul_nonneg (abs_nonneg _) hr)
        (mul_nonneg (abs_nonneg _) hr)
    · exact Option.noConfusion h

/-- Success of `calculate_damage_area` on every bbox of at most 4 entries. -/
theorem calculate_damage_area_isSome (bbox : List ℚ) (r : ℚ)
    (h : bbox.length ≤ 4) : (calculate_damage_area bbox r).isSome = true := by
  unfold calculate_damage_area
  split_ifs with h1
  · rfl
  · rcases bbox with _ | ⟨x1, _ | ⟨y1, _ | ⟨x2, _ | ⟨y2, _ | ⟨z, rest⟩⟩⟩⟩⟩
    · exact absurd (Or.inl rfl) h1
    · exact absurd (Or.inr (by simp)) h1
    · exact absurd (Or.inr (by simp)) h1
    · exact absurd (Or.inr (by simp)) h1
    · rfl
    · simp only [List.length_cons] at h
      omega

/-- The confidence bucketing is monotone in the confidence. -/
theorem base_severity_rank_mono {c1 c2 : ℚ} (h : c1 ≤ c2) :
    (base_severity c1).rank ≤ (base_severity c2).rank := by
  unfold base_severity
  split_ifs <;> norm_num [Severity.rank] <;> linarith

/-- Positivity: `0 < severity_count s ds` iff some estimate has severity `s`. -/
theorem severity_count_pos_iff (s : Severity) (ds : List DamageEstimate) :
    0 < severity_count s ds ↔ ∃ d ∈ ds, d.severity = s := by
  unfold severity_count
  rw [List.length_pos_iff_exists_mem]
  constructor
  · rintro ⟨d, hd⟩
    rw [List.mem_filter] at hd
    exact ⟨d, hd.1, by simpa using hd.2⟩
  · rintro ⟨d, hd, hs⟩
    exact ⟨d, List.mem_filter.mpr ⟨hd, by simpa using hs⟩⟩

/-! ### Claim theorems -/

/-- Claim C1 (amended): within this input model, `analyze_single_damage`
returns an estimate (raises no exception) for every detection whose bbox,
after the `detection.get` default, has at most 4 entries — in particular for
any absent, empty, or short bbox.  (The claim's full generality fails: a bbox
of more than 4 entries makes the tuple unpacking raise, see the
counterexample.) -/
theorem analyze_single_damage_total_of_wellformed_bbox (d : Detection)
    (h : (d.bbox.getD [0, 0, 100, 100]).length ≤ 4) :
    (analyze_single_damage d).isSome = true := by
  have hs := calculate_damage_area_isSome (d.bbox.getD [0, 0, 100, 100]) (1/100) h
  rcases hc : calculate_damage_area (d.bbox.getD [0, 0, 100, 100]) (1/100) with _ | a
  · rw [hc] at hs; exact absurd hs (by simp)
  · simp only [analyze_single_damage, hc, Option.isSome_some]

/-- Claim C1 witness: a concrete well-formed detection is analyzed
successfully. -/
theorem analyze_single_damage_total_of_wellformed_bbox_witness :
    ((⟨some "D40_Pothole", some (17/20),
        some [0, 0, 50, 50]⟩ : Detection).bbox.getD [0, 0, 100, 100]).length ≤ 4 ∧
      (analyze_single_damage ⟨some "D40_Pothole", some (17/20),
        some [0, 0, 50, 50]⟩).isSome = true :=
  ⟨by decide, analyze_single_damage_total_of_wellformed_bbox _ (by decide)⟩

/-- Claim C1 counterexample: on a detection whose bbox has five entries the
unpacking `x1, y1, x2, y2 = bbox` raises (`none`), refuting "never raises an
exception" for arbitrary malformed bboxes. -/
theorem analyze_single_damage_none_on_overlong_bbox :
    analyze_single_damage ⟨some "D40_Pothole", some (17/20),
      some [1, 2, 3, 4, 5]⟩ = none := by decide

/-- Claim C2 (amended): a bbox that is present but has fewer than 4
coordinates yields the nominal default `area_sqm = 0.1`; a detection with no
bbox key instead gets the default bbox `[0, 0, 100, 100]`, which yields
`area_sqm = 1.0`, not `0.1`. -/
theorem area_sqm_defaults (d : Detection) :
    (∀ bb : List ℚ, d.bbox = some bb → bb.length < 4 →
      (analyze_single_damage d).map (·.area_sqm) = some (1/10)) ∧
    (d.bbox = none →
      (analyze_single_damage d).map (·.area_sqm) = some 1) := by
  constructor
  · intro bb hbb hlen
    have harea : calculate_damage_area (d.bbox.getD [0, 0, 100, 100]) (1/100) =
        some (1/10) := by
      rw [hbb]
      simp only [Option.getD_some]
      unfold calculate_damage_area
      rw [if_pos (Or.inr hlen)]
    simp only [analyze_single_damage, harea]
    norm_num [pyRound, pyRoundInt]
  · intro hbb
    have harea : calculate_damage_area (d.bbox.getD [0, 0, 100, 100]) (1/100) =
        some 1 := by
      rw [hbb]
      simp only [Option.getD_none]
      unfold calculate_damage_area
      rw [if_neg (by simp)]
      norm_num
    simp only [analyze_single_damage, harea]
    norm_num [pyRound, pyRoundInt]

/-- Claim C2 witness: a present two-entry bbox gives `area_sqm = 0.1`, and a
missing bbox key gives `area_sqm = 1.0`. -/
theorem area_sqm_defaults_witness :
    (analyze_single_damage ⟨some "D40_Pothole", some (17/20),
      some [3, 7]⟩).map (·.area_sqm) = some (1/10) ∧
    (analyze_single_damage ⟨some "D00_Longitudinal_Crack", some (17/20),
      none⟩).map (·.area_sqm) = some 1 :=
  ⟨(area_sqm_defaults _).1 [3, 7] rfl (by decide),
   (area_sqm_defaults _).2 rfl⟩

/-- Claim C2 counterexample: for a detection whose bbox key is missing, the
returned `area_sqm` is `1.0`, not the claimed nominal `0.1`. -/
theorem missing_bbox_key_gives_area_one :
    (analyze_single_damage ⟨some "D40_Pothole", some (17/20), none⟩).map
      (·.area_sqm) = some 1 ∧ (1 : ℚ) ≠ 1/10 := by
  constructor
  · norm_num +decide [analyze_single_damage, calculate_damage_area,
      determine_severity, base_severity, pyRound, pyRoundInt]
  · norm_num

/-- A confidence below `0.6` always buckets to minor. -/
theorem base_severity_minor_of_lt {c : ℚ} (h : c < 3/5) :
    base_severity c = .minor := by
  unfold base_severity
  split_ifs with h1 h2 <;> first | rfl | linarith

/-- Claim C3 (amended): for the high-impact types, a base-minor detection
(confidence below `0.6`) escalates to moderate only when
`0.5 < area_sqm ≤ 2.0`; when `area_sqm > 2.0` the `elif` chain takes the
large-area branch, whose escalations cover only severe and moderate, so the
severity stays minor. -/
theorem minor_escalation_only_midrange_area :
    (∀ (c : ℚ) (t : String) (a : ℚ),
      (t = "D20_Alligator_Crack" ∨ t = "D40_Pothole") → c < 3/5 →
      1/2 < a → a ≤ 2 → determine_severity c t a = .moderate) ∧
    (∀ (c : ℚ) (t : String) (a : ℚ),
      (t = "D20_Alligator_Crack" ∨ t = "D40_Pothole") → c < 3/5 →
      2 < a → determine_severity c t a = .minor) := by
  constructor
  · intro c t a ht hc h1 h2
    unfold determine_severity
    rw [base_severity_minor_of_lt hc, if_pos ht, if_neg (by linarith), if_pos h1]
  · intro c t a ht hc h2
    unfold determine_severity
    rw [base_severity_minor_of_lt hc, if_pos ht, if_pos h2]

/-- Claim C3 witness: at confidence `0.5`, a pothole of area `1.0` escalates
to moderate, while one of area `3.0` stays minor. -/
theorem minor_escalation_only_midrange_area_witness :
    determine_severity (1/2) "D40_Pothole" 1 = .moderate ∧
      determine_severity (1/2) "D40_Pothole" 3 = .minor :=
  ⟨minor_escalation_only_midrange_area.1 (1/2) "D40_Pothole" 1 (Or.inr rfl)
      (by norm_num) (by norm_num) (by norm_num),
    minor_escalation_only_midrange_area.2 (1/2) "D40_Pothole" 3 (Or.inr rfl)
      (by norm_num) (by norm_num)⟩

/-- Claim C3 counterexample: a pothole with confidence `0.5` (base minor) and
area `3.0 > 0.5` is classified minor, not the claimed moderate. -/
theorem no_minor_escalation_above_two_sqm :
    determine_severity (1/2) "D40_Pothole" 3 = Severity.minor ∧
      Severity.minor ≠ Severity.moderate := by
  constructor
  · norm_num +decide [determine_severity, base_severity]
  · decide

/-- Claim C4 (amended): every estimate has `repair_cost ≥ 0` and
`repair_time_hours ≥ 0`, and `repair_days` is the ceiling of the *unrounded*
repair time (exact area × hourly rate, the source's `total_time_hours`)
divided by 8 — not of the rounded `repair_time_hours` field (see the
counterexample). -/
theorem estimate_nonneg_and_repair_days_from_unrounded_time
    (d : Detection) (e : DamageEstimate) (h : analyze_single_damage d = some e) :
    0 ≤ e.repair_cost ∧ 0 ≤ e.repair_time_hours ∧
      (raw_repair_time d).map (fun t => ⌈t / 8⌉) = some e.repair_days := by
  rcases hc : calculate_damage_area (d.bbox.getD [0, 0, 100, 100]) (1/100)
    with _ | a
  · rw [analyze_single_damage, hc] at h
    exact Option.noConfusion h
  · have ha : 0 ≤ a := calculate_damage_area_nonneg (by norm_num) hc
    simp only [analyze_single_damage, hc] at h
    obtain rfl := Option.some.inj h
    refine ⟨?_, ?_, ?_⟩
    · exact pyRound_nonneg 2 (mul_nonneg ha (cost_per_m_pos _ _).le)
    · exact pyRound_nonneg 1 (mul_nonneg ha (repair_time_per_sqm_pos _ _).le)
    · unfold raw_repair_time raw_area
      rw [hc]
      rfl

/-- Claim C4 witness: a concrete pothole detection, its estimate, and the
three invariants at it. -/
theorem estimate_nonneg_and_repair_days_witness :
    0 ≤ pothole_small_estimate.repair_cost ∧
    0 ≤ pothole_small_estimate.repair_time_hours ∧
    (raw_repair_time ⟨some "D40_Pothole", some (17/20), some [0, 0, 10, 10]⟩).map
      (fun t => ⌈t / 8⌉) = some pothole_small_estimate.repair_days :=
  estimate_nonneg_and_repair_days_from_unrounded_time
    ⟨some "D40_Pothole", some (17/20), some [0, 0, 10, 10]⟩ _ (by
      norm_num +decide [analyze_single_damage, calculate_damage_area,
        determine_severity, base_severity, cost_per_m, repair_time_per_sqm,
        priority_level, pyRound, pyRoundInt, pothole_small_estimate]
      exact ceil_rat_eq _ 1 (by norm_num) (by norm_num))

/-- Claim C4 counterexample: a minor longitudinal crack of exact repair time
`8.04 h` has `repair_days = 2` while its rounded `repair_time_hours` field is
`8.0`, whose ceiling over an 8-hour day is `1` — so `repair_days` is not the
ceiling of the returned `repair_time_hours` field divided by 8. -/
theorem repair_days_differs_from_rounded_field_ceil :
    (analyze_single_damage ⟨some "D00_Longitudinal_Crack", some (1/2),
        some [0, 0, 402, 400]⟩).map
      (fun e => (e.repair_time_hours, e.repair_days)) = some ((8 : ℚ), (2 : ℤ)) ∧
    ⌈(8 : ℚ) / 8⌉ ≠ (2 : ℤ) := by
  constructor
  · norm_num +decide [analyze_single_damage, calculate_damage_area,
      determine_severity, base_severity, cost_per_m, repair_time_per_sqm,
      priority_level, pyRound, pyRoundInt]
    exact ceil_rat_eq _ 2 (by norm_num) (by norm_num)
  · rw [show ((8:ℚ)/8) = 1 by norm_num]
    norm_num

/-- Claim C5 (amended): the concrete pothole scenario
(`confidence = 0.85`, `bbox = [100, 150, 180, 220]`, ratio `0.01`) yields
`area_sqm = 0.56`, severity severe, `repair_cost = 3360.0` and
`repair_days = 1` as claimed, but the returned `repair_time_hours` field is
the 1-decimal rounding `round(0.56 × 4.0, 1) = 2.2`, not the unrounded
`2.24`. -/
theorem pothole_scenario_evaluation :
    analyze_single_damage ⟨some "D40_Pothole", some (17/20),
        some [100, 150, 180, 220]⟩ =
      some { damage_type := "D40_Pothole", severity := .severe,
             confidence := 17/20, area_sqm := 14/25,
             bbox := [100, 150, 180, 220], repair_cost := 3360,
             repair_time_hours := 11/5, repair_days := 1,
             priority_level := 2 } := by
  norm_num +decide [analyze_single_damage, calculate_damage_area,
    determine_severity, base_severity, cost_per_m, repair_time_per_sqm,
    priority_level, pyRound, pyRoundInt]
  exact ceil_rat_eq _ 1 (by norm_num) (by norm_num)

/-- Claim C5 counterexample: in that scenario the returned
`repair_time_hours` is `2.2`, not the claimed `2.24`. -/
theorem pothole_scenario_time_field_is_rounded :
    (analyze_single_damage ⟨some "D40_Pothole", some (17/20),
        some [100, 150, 180, 220]⟩).map (·.repair_time_hours) =
      some (11/5 : ℚ) ∧ (11/5 : ℚ) ≠ 56/25 := by
  constructor
  · norm_num +decide [analyze_single_damage, calculate_damage_area,
      determine_severity, base_severity, cost_per_m, repair_time_per_sqm,
      priority_level, pyRound, pyRoundInt]
  · norm_num

/-- Claim C9: for a fixed damage type and area, the severity produced by
`determine_severity` is monotone in the confidence, in the order
`minor < moderate < severe < critical` (via `Severity.rank`), with the
high-impact area-escalation rule applied in both runs. -/
theorem determine_severity_rank_mono (damage_type : String) (area_sqm : ℚ)
    {c1 c2 : ℚ} (h : c1 ≤ c2) :
    (determine_severity c1 damage_type area_sqm).rank ≤
      (determine_severity c2 damage_type area_sqm).rank := by
  have hb := base_severity_rank_mono h
  simp only [determine_severity]
  split_ifs with h1 h2 h3
  · revert hb
    cases base_severity c1 <;> cases base_severity c2 <;>
      simp [Severity.rank]
  · revert hb
    cases base_severity c1 <;> cases base_severity c2 <;>
      simp [Severity.rank]
  · exact hb
  · exact hb

/-- Claim C9 witness: monotonicity at the concrete pair of confidences
`0.5 ≤ 0.9` for a pothole of area `1.0`. -/
theorem determine_severity_rank_mono_witness :
    (1:ℚ)/2 ≤ 9/10 ∧
      (determine_severity (1/2) "D40_Pothole" 1).rank ≤
        (determine_severity (9/10) "D40_Pothole" 1).rank :=
  ⟨by norm_num, determine_severity_rank_mono "D40_Pothole" 1 (by norm_num)⟩

/-- Claim C6: for every area name and image count (zero included), the
empty estimate list takes the clean-area branch: the result equals the
clean report, whose condition is `EXCELLENT`, whose cost/time/area summary
totals are all `0`, and whose next inspection is 180 days out. -/
theorem empty_estimates_take_clean_branch (area_name : String)
    (total_images : ℕ) :
    generate_area_summary area_name [] total_images =
      some (generate_clean_area_report area_name total_images) ∧
    (generate_clean_area_report area_name total_images).overall_condition =
      "EXCELLENT" ∧
    (generate_clean_area_report area_name
      total_images).summary_statistics.damage_rate_percentage = 0 ∧
    (generate_clean_area_report area_name
      total_images).summary_statistics.total_damaged_area_sqm = 0 ∧
    (generate_clean_area_report area_name
      total_images).summary_statistics.total_repair_cost_usd = 0 ∧
    (generate_clean_area_report area_name
      total_images).summary_statistics.total_repair_time_hours = 0 ∧
    (generate_clean_area_report area_name
      total_images).summary_statistics.estimated_project_duration_days = 0 ∧
    (generate_clean_area_report area_name
      total_images).summary_statistics.damaged_locations = 0 ∧
    (generate_clean_area_report area_name total_images).next_inspection_in_days =
      some 180 :=
  ⟨rfl, rfl, rfl, rfl, rfl, rfl, rfl, rfl, rfl⟩

/-- Claim C7: on every non-empty estimate list (and positive image count, so
the summary exists), the `overall_condition` field follows the
first-match-wins decision order of `spec_overall_condition`; in particular
severities `[critical, severe, minor]` give `CRITICAL`, and 3 severe among 6
estimates with no critical give `POOR`. -/
theorem overall_condition_first_match_order :
    (∀ (area_name : String) (ds : List DamageEstimate) (n : ℕ),
      ds ≠ [] → 0 < n →
      (generate_area_summary area_name ds n).map (·.overall_condition) =
        some (spec_overall_condition ds)) ∧
    (generate_area_summary "Area" [mk_estimate .critical, mk_estimate .severe,
        mk_estimate .minor] 10).map (·.overall_condition) = some "CRITICAL" ∧
    (generate_area_summary "Area" [mk_estimate .severe, mk_estimate .severe,
        mk_estimate .severe, mk_estimate .minor, mk_estimate .minor,
        mk_estimate .minor] 20).map (·.overall_condition) = some "POOR" := by
  refine ⟨?_, by decide, by decide⟩
  intro area_name ds n hds hn
  have h0 : ¬(n = 0) := Nat.pos_iff_ne_zero.mp hn
  simp only [generate_area_summary]
  rw [if_neg hds, if_neg h0]
  simp only [Option.map_some']
  unfold spec_overall_condition
  simp only [← severity_count_pos_iff .critical ds,
    ← severity_count_pos_iff .severe ds]

/-- Claim C7 witness: the decision-order equation at a concrete one-element
list. -/
theorem overall_condition_first_match_order_witness :
    (generate_area_summary "Area" [mk_estimate .minor] 1).map
      (·.overall_condition) = some (spec_overall_condition [mk_estimate .minor]) :=
  overall_condition_first_match_order.1 "Area" [mk_estimate .minor] 1
    (by decide) (by decide)

/-- Claim C10: the non-empty aggregation branch divides by `total_images`
with no guard, so it fails (`ZeroDivisionError`, embedded `none`) exactly
when `total_images = 0`; under `total_images > 0` the aggregation is total,
and the empty-list branch succeeds for every `total_images`, zero included. -/
theorem aggregation_total_iff_positive_images :
    (∀ (area_name : String) (ds : List DamageEstimate), ds ≠ [] →
      generate_area_summary area_name ds 0 = none) ∧
    (∀ (area_name : String) (ds : List DamageEstimate) (n : ℕ), 0 < n →
      (generate_area_summary area_name ds n).isSome = true) ∧
    (∀ (area_name : String) (n : ℕ),
      (generate_area_summary area_name [] n).isSome = true) := by
  refine ⟨?_, ?_, ?_⟩
  · intro area_name ds hds
    simp only [generate_area_summary]
    rw [if_neg hds]
    rfl
  · intro area_name ds n hn
    rcases eq_or_ne ds [] with rfl | hds
    · simp [generate_area_summary]
    · simp only [generate_area_summary]
      rw [if_neg hds, if_neg (Nat.pos_iff_ne_zero.mp hn)]
      rfl
  · intro area_name n
    simp [generate_area_summary]

/-- Claim C10 witness: the failure and both success modes at concrete
inputs. -/
theorem aggregation_total_iff_positive_images_witness :
    generate_area_summary "Area" [mk_estimate .minor] 0 = none ∧
    (generate_area_summary "Area" [mk_estimate .minor] 4).isSome = true ∧
    (generate_area_summary "Area" [] 0).isSome = true :=
  ⟨aggregation_total_iff_positive_images.1 "Area" [mk_estimate .minor]
      (by decide),
    aggregation_total_iff_positive_images.2.1 "Area" [mk_estimate .minor] 4
      (by decide),
    aggregation_total_iff_positive_images.2.2 "Area" 0⟩

/-- The five category accumulators of the budget loop sum to the total
repair cost (the percentages `0.4 + 0.35 + 0.15 + 0.05 + 0.05` sum to 1). -/
theorem budget_accumulators_sum (ds : List DamageEstimate) :
    (ds.map fun d => d.repair_cost * (2/5)).sum +
      (ds.map fun d => d.repair_cost * (7/20)).sum +
      (ds.map fun d => d.repair_cost * (3/20)).sum +
      (ds.map fun d => d.repair_cost * (1/20)).sum +
      (ds.map fun d => d.repair_cost * (1/20)).sum =
      (ds.map (·.repair_cost)).sum := by
  rw [List.sum_map_mul_right, List.sum_map_mul_right, List.sum_map_mul_right,
    List.sum_map_mul_right]
  ring

/-- Claim C8: for every non-empty estimate list, the budget total is the
rounded sum of the repair costs (the category percentages sum to 1), the sum
of the five rounded category amounts differs from the rounded total by at
most `0.03` (six roundings of half an ulp each), and `cost_per_sqm_average`
is the rounded quotient of the total by `max(total area, 1)`. -/
theorem budget_breakdown_consistency (ds : List DamageEstimate)
    (hds : ds ≠ []) :
    (generate_budget_breakdown ds).total_budget =
      pyRound ((ds.map (·.repair_cost)).sum) 2 ∧
    |(generate_budget_breakdown ds).materials +
        (generate_budget_breakdown ds).labor +
        (generate_budget_breakdown ds).equipment +
        (generate_budget_breakdown ds).traffic_control +
        (generate_budget_breakdown ds).contingency -
        (generate_budget_breakdown ds).total_budget| ≤ 3/100 ∧
    (generate_budget_breakdown ds).cost_per_sqm_average =
      pyRound (((ds.map (·.repair_cost)).sum) /
        max ((ds.map (·.area_sqm)).sum) 1) 2 := by
  have htot := budget_accumulators_sum ds
  simp only [generate_budget_breakdown]
  refine ⟨by rw [htot], ?_, by rw [htot]⟩
  have h1 := pyRound_sub_abs_le ((ds.map fun d => d.repair_cost * (2/5)).sum) 2
  have h2 := pyRound_sub_abs_le ((ds.map fun d => d.repair_cost * (7/20)).sum) 2
  have h3 := pyRound_sub_abs_le ((ds.map fun d => d.repair_cost * (3/20)).sum) 2
  have h4 := pyRound_sub_abs_le ((ds.map fun d => d.repair_cost * (1/20)).sum) 2
  have h6 := pyRound_sub_abs_le
    ((ds.map fun d => d.repair_cost * (2/5)).sum +
      (ds.map fun d => d.repair_cost * (7/20)).sum +
      (ds.map fun d => d.repair_cost * (3/20)).sum +
      (ds.map fun d => d.repair_cost * (1/20)).sum +
      (ds.map fun d => d.repair_cost * (1/20)).sum) 2
  rw [abs_le] at h1 h2 h3 h4 h6 ⊢
  norm_num at h1 h2 h3 h4 h6 ⊢
  constructor <;> linarith

/-- Claim C8 witness: the three budget facts at a concrete one-element
list. -/
theorem budget_breakdown_consistency_witness :
    (generate_budget_breakdown [mk_estimate .minor]).total_budget =
      pyRound ((([mk_estimate .minor] : List DamageEstimate).map
        (·.repair_cost)).sum) 2 ∧
    |(generate_budget_breakdown [mk_estimate .minor]).materials +
        (generate_budget_breakdown [mk_estimate .minor]).labor +
        (generate_budget_breakdown [mk_estimate .minor]).equipment +
        (generate_budget_breakdown [mk_estimate .minor]).traffic_control +
        (generate_budget_breakdown [mk_estimate .minor]).contingency -
        (generate_budget_breakdown [mk_estimate .minor]).total_budget| ≤
      3/100 ∧
    (generate_budget_breakdown [mk_estimate .minor]).cost_per_sqm_average =
      pyRound ((([mk_estimate .minor] : List DamageEstimate).map
          (·.repair_cost)).sum /
        max ((([mk_estimate .minor] : List DamageEstimate).map
          (·.area_sqm)).sum) 1) 2 :=
  budget_breakdown_consistency [mk_estimate .minor] (by decide)

end RoadDamage
